import Mathlib

/-!
# GeoVAN Trust & Security core: shallow embedding and verification

This file embeds the algorithmic core of the GeoVAN repository
(`src/core.rs`, `src/config.rs`) in Lean 4 and proves properties of the
replay guard verdict, the trust-score utilities, the haversine geometry,
report validation and configuration merging.

Conventions of the embedding:
* Rust `f32`/`f64` score and coordinate values are embedded as `ℚ` so that
  the definitions stay executable; the transcendental geometry
  (`calculate_distance`, `calculate_bearing`) is interpreted over `ℝ`.
* Rust `u32`/`u64`/`usize`/`u16` are embedded as `ℕ`.
* `DateTime<Utc>` timestamps are embedded as `ℤ` (whole seconds), matching
  the source's use of `signed_duration_since(..).num_seconds()`.
* Fallible Rust functions returning `Result` are embedded as `Except`.
-/

open scoped RealInnerProductSpace

namespace GeoVan

/-- `TrustScore` type alias from core.rs (`f32`), embedded as `ℚ`. -/
abbrev TrustScore := ℚ

/-- `AnomalyScore` type alias from core.rs (`f32`), embedded as `ℚ`. -/
abbrev AnomalyScore := ℚ

/-- Vehicle position in 3D space with accuracy metrics (core.rs `Position`). -/
structure Position where
  lat : ℚ
  lon : ℚ
  alt : Option ℚ
  accuracy_horizontal : Option ℚ
  accuracy_vertical : Option ℚ
  hdop : Option ℚ
  vdop : Option ℚ
  tdop : Option ℚ
  satellites_used : Option Nat
  satellites_visible : Option Nat
deriving DecidableEq

/-- 3D velocity vector with accuracy (core.rs `Velocity`). -/
structure Velocity where
  vx : ℚ
  vy : ℚ
  vz : ℚ
  speed : ℚ
  speed_accuracy : Option ℚ
  acceleration : Option ℚ
  deceleration : Option ℚ
deriving DecidableEq

/-- Vehicle type classification (core.rs `VehicleType`). -/
inductive VehicleType where
  | Unknown | PassengerCar | Truck | Bus | Motorcycle | EmergencyVehicle
  | PublicTransport | DeliveryVan | Taxi | RideShare | Government | Military
  | Construction | Agricultural | Recreational
deriving DecidableEq

/-- Vehicle size categories (core.rs `VehicleSize`). -/
inductive VehicleSize where
  | Micro | Small | Medium | Large | ExtraLarge | Oversized
deriving DecidableEq

/-- Fuel type enumeration (core.rs `FuelType`). -/
inductive FuelType where
  | Gasoline | Diesel | Electric | Hybrid | PluginHybrid | Hydrogen
  | NaturalGas | Biofuel
deriving DecidableEq

/-- Euro emission standards (core.rs `EuroEmissionStandard`). -/
inductive EuroEmissionStandard where
  | Euro1 | Euro2 | Euro3 | Euro4 | Euro5 | Euro6 | Euro7 | ZeroEmission
deriving DecidableEq

/-- Safety features (core.rs `SafetyFeature`). -/
inductive SafetyFeature where
  | Abs | Esc | Tcs | Blis | Ldw | Fcw | Aeb | Bsm | Rcta
  | ParkingSensors | BackupCamera | SurroundView
deriving DecidableEq

/-- Autonomous driving levels (core.rs `AutonomousLevel`). -/
inductive AutonomousLevel where
  | Level0 | Level1 | Level2 | Level3 | Level4 | Level5
deriving DecidableEq

/-- Vehicle metadata and capabilities (core.rs `VehicleMetadata`). -/
structure VehicleMetadata where
  make : Option String
  model : Option String
  year : Option String
  vin : Option String
  vehicle_type : VehicleType
  size : VehicleSize
  features : List String
  certifications : List String
  fuel_type : Option FuelType
  fuel_efficiency : Option ℚ
  emission_standard : Option EuroEmissionStandard
  safety_features : List SafetyFeature
  airbag_count : Option Nat
  autonomous_capable : Bool
  autonomous_level : AutonomousLevel
deriving DecidableEq

/-- Sensor types (core.rs `SensorType`). -/
inductive SensorType where
  | Gps | Accelerometer | Gyroscope | Magnetometer | Temperature | Humidity
  | Pressure | FuelLevel | EngineRpm | EngineTemp | OilPressure | TirePressure
  | BrakePressure | SteeringAngle | WheelSpeed | BatteryVoltage | BatteryTemp
  | ChargingStatus | RangeEstimate
deriving DecidableEq

/-- Sensor reading with metadata (core.rs `SensorReading`). -/
structure SensorReading where
  sensor_type : SensorType
  value : ℚ
  accuracy : Option ℚ
  timestamp : ℤ
  unit : String
  min_value : Option ℚ
  max_value : Option ℚ
  is_calibrated : Bool
  calibration_date : Option Nat
deriving DecidableEq

/-- Vehicle capability (core.rs `Capability`). -/
structure Capability where
  name : String
  version : String
  enabled : Bool
  parameters : List String
  last_update : Nat
deriving DecidableEq

/-- Anomaly types (core.rs `AnomalyType`). -/
inductive AnomalyType where
  | None | SpeedViolation | RapidAcceleration | RapidDeceleration
  | ErraticMovement | PositionJump | SensorInconsistency | CertificateExpired
  | SignatureInvalid | ReplayAttempt | FrequencyViolation | LocationAnomaly
  | BehaviorChange
deriving DecidableEq

/-- Trust factors contributing to overall score (core.rs `TrustFactor`). -/
structure TrustFactor where
  name : String
  weight : ℚ
  score : TrustScore
  description : String
  last_calculation : Nat
deriving DecidableEq

/-- Trust metrics with detailed scoring (core.rs `TrustMetrics`). -/
structure TrustMetrics where
  overall_score : TrustScore
  behavior_score : TrustScore
  certificate_score : TrustScore
  history_score : TrustScore
  proximity_score : TrustScore
  sensor_score : TrustScore
  factors : List TrustFactor
  flags : List String
  last_update : Nat
  next_update : Nat
  anomaly_score : AnomalyScore
  anomalies : List AnomalyType
  anomaly_count : Nat
deriving DecidableEq

/-- Security warnings (core.rs `SecurityWarning`). -/
inductive SecurityWarning where
  | NoWarnings | CertificateExpiring | HighMessageRate | SuspiciousLocation
  | BehaviorAnomaly | NetworkAnomaly | AuthenticationFailure
  | AuthorizationViolation | DataIntegrityIssue | PrivacyViolation
deriving DecidableEq

/-- Security flags and status (core.rs `SecurityFlags`). -/
structure SecurityFlags where
  certificate_valid : Bool
  signature_valid : Bool
  not_replay : Bool
  rate_limit_ok : Bool
  location_plausible : Bool
  timestamp_fresh : Bool
  pseudonym_valid : Bool
  warnings : List SecurityWarning
  threat_level : Nat
  threat_description : String
deriving DecidableEq

/-- Network information (core.rs `NetworkInfo`). -/
structure NetworkInfo where
  network_type : String
  network_id : String
  signal_strength : Option ℚ
  latency : Option ℚ
  bandwidth : Option ℚ
  encrypted : Bool
  encryption_type : Option String
  retry_count : Nat
  last_network_change : Nat
deriving DecidableEq

/-- Emergency vehicle types (core.rs `EmergencyType`). -/
inductive EmergencyType where
  | NotEmergency | Police | Fire | Ambulance | Rescue | Military
  | Government | CivilDefense
deriving DecidableEq

/-- Complete vehicle position message (core.rs `VehiclePosition`).
The `Uuid` vehicle id is embedded as `ℕ`; the `DateTime<Utc>` timestamp as
`ℤ` seconds. -/
structure VehiclePosition where
  vehicle_id : Nat
  certificate_id : Option String
  rsu_id : Option String
  position : Position
  velocity : Option Velocity
  heading : Option ℚ
  speed_accuracy : Option ℚ
  timestamp : ℤ
  sequence : Nat
  epoch : Nat
  metadata : Option VehicleMetadata
  sensors : List SensorReading
  capabilities : List Capability
  trust : Option TrustMetrics
  security : Option SecurityFlags
  network : Option NetworkInfo
  route_waypoints : List String
  emergency_vehicle : Bool
  emergency_type : EmergencyType
  priority_level : Nat
deriving DecidableEq

/-- `impl Trusted for VehiclePosition :: trust_score` (core.rs):
`self.trust.as_ref().map(|t| t.overall_score).unwrap_or(0.0)`. -/
def VehiclePosition.trust_score (v : VehiclePosition) : TrustScore :=
  (v.trust.map fun t => t.overall_score).getD 0

/-- `impl Trusted for VehiclePosition :: is_trusted` (core.rs):
`self.trust_score() >= threshold`. -/
def VehiclePosition.is_trusted (v : VehiclePosition) (threshold : TrustScore) : Bool :=
  decide (v.trust_score ≥ threshold)

/-- `impl Validatable for VehiclePosition :: validate` (core.rs).
The source reads `Utc::now()` internally for the freshness check; that
clock reading is surfaced here as the explicit `now` parameter (whole
seconds), matching `now.signed_duration_since(self.timestamp).num_seconds()`. -/
def VehiclePosition.validate (v : VehiclePosition) (now : ℤ) : Except String Unit :=
  if v.position.lat < -90 ∨ v.position.lat > 90 then
    Except.error "Invalid latitude"
  else if v.position.lon < -180 ∨ v.position.lon > 180 then
    Except.error "Invalid longitude"
  else if v.sequence = 0 then
    Except.error "Sequence number cannot be 0"
  else if |now - v.timestamp| > 86400 then
    Except.error "Timestamp too far from current time"
  else
    Except.ok ()

/-- Degrees to radians, Rust `f64::to_radians`: `self * (π / 180)`. -/
noncomputable def toRadians (x : ℚ) : ℝ := (x : ℝ) * (Real.pi / 180)

/-- `utils::calculate_distance` (core.rs): haversine great-circle distance
in meters, interpreted over `ℝ`. -/
noncomputable def calculate_distance (pos1 pos2 : Position) : ℝ :=
  let lat1 := toRadians pos1.lat
  let lon1 := toRadians pos1.lon
  let lat2 := toRadians pos2.lat
  let lon2 := toRadians pos2.lon
  let dlat := lat2 - lat1
  let dlon := lon2 - lon1
  let a := Real.sin (dlat / 2) ^ 2 +
            Real.cos lat1 * Real.cos lat2 * Real.sin (dlon / 2) ^ 2
  let c := 2 * Real.arcsin (Real.sqrt a)
  6371000 * c

/-- Rust `f64::atan2` (`self = y`, argument `x`), embedded as the argument
of the complex number `x + y·i`, which lies in `(-π, π]` as `atan2` does. -/
noncomputable def atan2 (y x : ℝ) : ℝ := Complex.arg { re := x, im := y }

/-- `utils::calculate_bearing` (core.rs): initial bearing in degrees,
interpreted over `ℝ`; Rust `f64::to_degrees` is `self * (180 / π)`. -/
noncomputable def calculate_bearing (pos1 pos2 : Position) : ℝ :=
  let lat1 := toRadians pos1.lat
  let lon1 := toRadians pos1.lon
  let lat2 := toRadians pos2.lat
  let lon2 := toRadians pos2.lon
  let dlon := lon2 - lon1
  let y := Real.sin dlon * Real.cos lat2
  let x := Real.cos lat1 * Real.sin lat2 -
            Real.sin lat1 * Real.cos lat2 * Real.cos dlon
  let bearing := atan2 y x * (180 / Real.pi)
  if bearing < 0 then bearing + 360 else bearing

/-- `utils::is_trusted` (core.rs): `score >= threshold`. -/
def utils.is_trusted (score threshold : TrustScore) : Bool :=
  decide (score ≥ threshold)

/-- `utils::normalize_trust_score` (core.rs): `score.max(0.0).min(1.0)`. -/
def normalize_trust_score (score : TrustScore) : TrustScore :=
  min (max score 0) 1

/-- `utils::weighted_trust_average` (core.rs): weighted average of
`(score, weight)` pairs; `0.0` on an empty list or a zero total weight. -/
def weighted_trust_average (scores : List (TrustScore × ℚ)) : TrustScore :=
  if scores.isEmpty then 0
  else
    let total_weight : ℚ := (scores.map fun p => p.2).sum
    if total_weight = 0 then 0
    else
      let weighted_sum : ℚ := (scores.map fun p => p.1 * p.2).sum
      weighted_sum / total_weight

/-- Configuration error type (config.rs `ConfigError`); the wrapped
`config::ConfigError` of `LoadError` is embedded as its message string. -/
inductive ConfigError where
  | LoadError (msg : String)
  | ValidationError (msg : String)
deriving DecidableEq

/-- SSL mode for database connections (config.rs `SslMode`). -/
inductive SslMode where
  | Disable | Allow | Prefer | Require | VerifyCA | VerifyFull
deriving DecidableEq

/-- Application-level configuration (config.rs `AppConfig`); `PathBuf`
fields are embedded as strings. -/
structure AppConfig where
  name : String
  version : String
  environment : String
  log_level : String
  data_dir : String
  temp_dir : String
deriving DecidableEq

/-- Database configuration (config.rs `DatabaseConfig`); `Duration` fields
are embedded as natural numbers of seconds. -/
structure DatabaseConfig where
  url : String
  max_connections : Nat
  connection_timeout : Nat
  query_timeout : Nat
  ssl_mode : SslMode
  ssl_cert : Option String
  ssl_key : Option String
  ssl_ca : Option String
deriving DecidableEq

/-- Redis configuration (config.rs `RedisConfig`). -/
structure RedisConfig where
  url : String
  pool_size : Nat
  connection_timeout : Nat
  read_timeout : Nat
  write_timeout : Nat
  tls : Bool
  tls_cert : Option String
deriving DecidableEq

/-- RabbitMQ configuration (config.rs `RabbitMQConfig`). -/
structure RabbitMQConfig where
  url : String
  connection_timeout : Nat
  heartbeat : Nat
  channel_timeout : Nat
  tls : Bool
  tls_cert : Option String
deriving DecidableEq

/-- Security configuration (config.rs `SecurityConfig`). -/
structure SecurityConfig where
  jwt_secret : String
  jwt_expiry : Nat
  refresh_token_expiry : Nat
  ca_bundle_path : String
  encryption_key : String
  key_rotation_interval : Nat
  max_login_attempts : Nat
  lockout_duration : Nat
  rate_limiting : Bool
  rate_limit_per_minute : Nat
  certificate_validation : Bool
  cert_expiry_warning : Nat
  ocsp_stapling : Bool
  crl_check_interval : Nat
deriving DecidableEq

/-- API configuration (config.rs `ApiConfig`). -/
structure ApiConfig where
  host : String
  port : Nat
  base_path : String
  cors_origins : List String
  request_timeout : Nat
  max_request_size : Nat
  compression : Bool
  metrics_enabled : Bool
  metrics_path : String
deriving DecidableEq

/-- WebSocket configuration (config.rs `WebSocketConfig`). -/
structure WebSocketConfig where
  host : String
  port : Nat
  max_connections : Nat
  connection_timeout : Nat
  heartbeat_interval : Nat
  compression : Bool
deriving DecidableEq

/-- Monitoring configuration (config.rs `MonitoringConfig`). -/
structure MonitoringConfig where
  prometheus_port : Nat
  grafana_port : Nat
  health_check_interval : Nat
  metrics_interval : Nat
  tracing_enabled : Bool
  jaeger_endpoint : Option String
  log_endpoint : Option String
deriving DecidableEq

/-- Performance configuration (config.rs `PerformanceConfig`). -/
structure PerformanceConfig where
  worker_threads : Nat
  max_concurrent_requests : Nat
  cache_ttl : Nat
  db_pool_size : Nat
  redis_pool_size : Nat
  queue_buffer_size : Nat
  connection_pooling : Bool
  query_caching : Bool
deriving DecidableEq

/-- Privacy configuration (config.rs `PrivacyConfig`). -/
structure PrivacyConfig where
  pseudonym_rotation_interval : Nat
  location_noise_stddev : ℚ
  data_retention_days : Nat
  anonymization_enabled : Bool
  differential_privacy : Bool
  privacy_budget : ℚ
  zero_knowledge_proofs : Bool
deriving DecidableEq

/-- Main configuration structure for the GeoVAN system (config.rs `Config`). -/
structure Config where
  config_path : String
  app : AppConfig
  database : DatabaseConfig
  redis : RedisConfig
  rabbitmq : RabbitMQConfig
  security : SecurityConfig
  api : ApiConfig
  websocket : WebSocketConfig
  monitoring : MonitoringConfig
  performance : PerformanceConfig
  privacy : PrivacyConfig
deriving DecidableEq

/-- `Config::merge` (config.rs): `fn merge(self, other: Config) -> Result<Self>
{ Ok(other) }` — the body discards `self` and returns `other`. -/
def Config.merge (_self other : Config) : Except ConfigError Config :=
  Except.ok other

namespace ReplayGuard

/-- Modelled from the spec: the per-pseudonym `IdentityState` kept by the
`ReplayGuard` component, whose implementation is not under `src/` (only the
data model and utilities are); the spec records the last accepted sequence
number and epoch for the pseudonym. -/
structure State where
  last_sequence : Nat
  last_epoch : Nat
deriving DecidableEq

/-- Modelled from the spec: the `ReplayGuard` per-report verdict
`not_replay = (sequence > last_sequence in same epoch) or (epoch advanced)`;
the guard implementation itself is not under `src/`. -/
def not_replay (st : State) (sequence epoch : Nat) : Bool :=
  (decide (sequence > st.last_sequence) && decide (epoch = st.last_epoch)) ||
    decide (epoch > st.last_epoch)

/-- Modelled from the spec: a failing `not_replay` check raises the
`ReplayAttempt` anomaly; the guard implementation itself is not under
`src/`. -/
def verdict_anomalies (st : State) (sequence epoch : Nat) : List AnomalyType :=
  if not_replay st sequence epoch then [] else [AnomalyType.ReplayAttempt]

end ReplayGuard

/-- A concrete in-range position (New York City, rounded coordinates),
used as evaluation input for witnesses. -/
def examplePosition : Position :=
  { lat := 40, lon := -74, alt := none, accuracy_horizontal := none,
    accuracy_vertical := none, hdop := none, vdop := none, tdop := none,
    satellites_used := none, satellites_visible := none }

/-- A concrete well-formed report used as evaluation input for witnesses. -/
def exampleReport : VehiclePosition :=
  { vehicle_id := 0, certificate_id := none, rsu_id := none,
    position := examplePosition, velocity := none, heading := none,
    speed_accuracy := none, timestamp := 0, sequence := 1, epoch := 1,
    metadata := none, sensors := [], capabilities := [], trust := none,
    security := none, network := none, route_waypoints := [],
    emergency_vehicle := false, emergency_type := EmergencyType.NotEmergency,
    priority_level := 0 }

/-- `exampleReport` with a different non-semantic field (`heading`), equal to
it on latitude, longitude, sequence and timestamp. -/
def exampleReportB : VehiclePosition :=
  { exampleReport with heading := some 5 }

/-- `exampleReport` with an out-of-domain latitude. -/
def badLatReport : VehiclePosition :=
  { exampleReport with position := { examplePosition with lat := 200 } }

/-- Proof infrastructure: the unit vector on the sphere at latitude `phi`
and longitude `lam` (radians). -/
noncomputable def sphVec (phi lam : ℝ) : EuclideanSpace ℝ (Fin 3) :=
  (WithLp.equiv 2 (Fin 3 → ℝ)).symm
    ![Real.cos phi * Real.cos lam, Real.cos phi * Real.sin lam, Real.sin phi]

/-- Proof infrastructure: the unit vector of a `Position`. -/
noncomputable def posVec (p : Position) : EuclideanSpace ℝ (Fin 3) :=
  sphVec (toRadians p.lat) (toRadians p.lon)

/-- The inner product of two spherical unit vectors is the spherical law of
cosines expression. -/
theorem sphVec_inner (p1 l1 p2 l2 : ℝ) :
    ⟪sphVec p1 l1, sphVec p2 l2⟫ =
      Real.cos p1 * Real.cos p2 * Real.cos (l2 - l1) +
        Real.sin p1 * Real.sin p2 := by
  simp only [sphVec, PiLp.inner_apply, RCLike.inner_apply, conj_trivial,
    WithLp.equiv_symm_pi_apply, Fin.sum_univ_three, Matrix.cons_val_zero,
    Matrix.cons_val_one, Matrix.head_cons, Matrix.cons_val_two, Matrix.tail_cons,
    Real.cos_sub]
  ring

/-- Spherical unit vectors have norm one. -/
theorem sphVec_norm (p l : ℝ) : ‖sphVec p l‖ = 1 := by
  have h : ⟪sphVec p l, sphVec p l⟫ = 1 := by
    rw [sphVec_inner, sub_self, Real.cos_zero]
    nlinarith [Real.sin_sq_add_cos_sq p]
  have h2 := real_inner_self_eq_norm_mul_norm (sphVec p l)
  have h3 : ‖sphVec p l‖ * ‖sphVec p l‖ = 1 := by rw [← h2, h]
  have h4 := norm_nonneg (sphVec p l)
  nlinarith

/-- The position vector of a report has norm one. -/
theorem posVec_norm (p : Position) : ‖posVec p‖ = 1 :=
  sphVec_norm _ _

/-- Monotonicity of `arccos` (reversed). -/
theorem arccos_antitone {u v : ℝ} (h : u ≤ v) : Real.arccos v ≤ Real.arccos u :=
  sub_le_sub_left (Real.monotone_arcsin h) _

section triangle

variable {E : Type} [NormedAddCommGroup E] [InnerProductSpace ℝ E]

/-- Key inequality behind the spherical triangle inequality: for unit
vectors, `⟪x,z⟫` dominates `cos (arccos ⟪x,y⟫ + arccos ⟪y,z⟫)`. -/
theorem inner_ge_of_unit (x y z : E) (hx : ‖x‖ = 1) (hy : ‖y‖ = 1) (hz : ‖z‖ = 1) :
    ⟪x, y⟫ * ⟪y, z⟫ -
        Real.sqrt (1 - ⟪x, y⟫ ^ 2) * Real.sqrt (1 - ⟪y, z⟫ ^ 2) ≤ ⟪x, z⟫ := by
  have hxx : ⟪x, x⟫ = 1 := by rw [real_inner_self_eq_norm_mul_norm, hx]; norm_num
  have hyy : ⟪y, y⟫ = 1 := by rw [real_inner_self_eq_norm_mul_norm, hy]; norm_num
  have hzz : ⟪z, z⟫ = 1 := by rw [real_inner_self_eq_norm_mul_norm, hz]; norm_num
  have hxexp : ⟪x - ⟪x, y⟫ • y, x - ⟪x, y⟫ • y⟫ = 1 - ⟪x, y⟫ ^ 2 := by
    rw [inner_sub_left, inner_sub_right, inner_sub_right, real_inner_smul_left,
      real_inner_smul_left, real_inner_smul_right, real_inner_smul_right, hxx, hyy,
      real_inner_comm x y]
    ring
  have hzexp : ⟪z - ⟪y, z⟫ • y, z - ⟪y, z⟫ • y⟫ = 1 - ⟪y, z⟫ ^ 2 := by
    rw [inner_sub_left, inner_sub_right, inner_sub_right, real_inner_smul_left,
      real_inner_smul_left, real_inner_smul_right, real_inner_smul_right, hzz, hyy,
      real_inner_comm z y]
    ring
  have hcross : ⟪x - ⟪x, y⟫ • y, z - ⟪y, z⟫ • y⟫ = ⟪x, z⟫ - ⟪x, y⟫ * ⟪y, z⟫ := by
    rw [inner_sub_left, inner_sub_right, inner_sub_right, real_inner_smul_left,
      real_inner_smul_left, real_inner_smul_right, real_inner_smul_right, hyy]
    ring
  have hnx : ‖x - ⟪x, y⟫ • y‖ = Real.sqrt (1 - ⟪x, y⟫ ^ 2) := by
    rw [← hxexp, real_inner_self_eq_norm_mul_norm]
    exact (Real.sqrt_mul_self (norm_nonneg _)).symm
  have hnz : ‖z - ⟪y, z⟫ • y‖ = Real.sqrt (1 - ⟪y, z⟫ ^ 2) := by
    rw [← hzexp, real_inner_self_eq_norm_mul_norm]
    exact (Real.sqrt_mul_self (norm_nonneg _)).symm
  have hcs := abs_real_inner_le_norm (x - ⟪x, y⟫ • y) (z - ⟪y, z⟫ • y)
  rw [hnx, hnz, hcross] at hcs
  have hlo := (abs_le.mp hcs).1
  linarith

/-- The spherical triangle inequality: the angle between unit vectors is a
pseudometric. -/
theorem arccos_inner_triangle (x y z : E) (hx : ‖x‖ = 1) (hy : ‖y‖ = 1)
    (hz : ‖z‖ = 1) :
    Real.arccos ⟪x, z⟫ ≤ Real.arccos ⟪x, y⟫ + Real.arccos ⟪y, z⟫ := by
  have haI : |(⟪x, y⟫ : ℝ)| ≤ 1 := by
    have h := abs_real_inner_le_norm x y; rw [hx, hy] at h; simpa using h
  have hbI : |(⟪y, z⟫ : ℝ)| ≤ 1 := by
    have h := abs_real_inner_le_norm y z; rw [hy, hz] at h; simpa using h
  obtain ⟨ha1, ha2⟩ := abs_le.mp haI
  obtain ⟨hb1, hb2⟩ := abs_le.mp hbI
  by_cases hAB : Real.arccos ⟪x, y⟫ + Real.arccos ⟪y, z⟫ ≤ Real.pi
  · have hcos : Real.cos (Real.arccos ⟪x, y⟫ + Real.arccos ⟪y, z⟫) =
        ⟪x, y⟫ * ⟪y, z⟫ -
          Real.sqrt (1 - ⟪x, y⟫ ^ 2) * Real.sqrt (1 - ⟪y, z⟫ ^ 2) := by
      rw [Real.cos_add, Real.cos_arccos ha1 ha2, Real.cos_arccos hb1 hb2,
        Real.sin_arccos, Real.sin_arccos]
    have hkey := inner_ge_of_unit x y z hx hy hz
    rw [← hcos] at hkey
    have h1 := arccos_antitone hkey
    rwa [Real.arccos_cos
      (add_nonneg (Real.arccos_nonneg _) (Real.arccos_nonneg _)) hAB] at h1
  · push_neg at hAB
    exact le_of_lt (lt_of_le_of_lt (Real.arccos_le_pi _) hAB)

end triangle

/-- Half-angle identity for the squared sine. -/
theorem sin_half_sq (x : ℝ) : Real.sin (x / 2) ^ 2 = (1 - Real.cos x) / 2 := by
  have h3 : 2 * (x / 2) = x := by ring
  rw [Real.sin_sq, Real.cos_sq, h3]
  ring

/-- The haversine expression equals `(1 - ⟪u₁, u₂⟫) / 2` for the two
spherical unit vectors. -/
theorem hav_eq_inner (p1 l1 p2 l2 : ℝ) :
    Real.sin ((p2 - p1) / 2) ^ 2 +
        Real.cos p1 * Real.cos p2 * Real.sin ((l2 - l1) / 2) ^ 2 =
      (1 - ⟪sphVec p1 l1, sphVec p2 l2⟫) / 2 := by
  rw [sphVec_inner, sin_half_sq, sin_half_sq, Real.cos_sub]
  ring

/-- Conversion between the `arcsin`-form and the `arccos`-form of the
central angle. -/
theorem two_arcsin_sqrt {h : ℝ} (h0 : 0 ≤ h) (h1 : h ≤ 1) :
    2 * Real.arcsin (Real.sqrt h) = Real.arccos (1 - 2 * h) := by
  have hs0 : 0 ≤ Real.sqrt h := Real.sqrt_nonneg h
  have hs1 : Real.sqrt h ≤ 1 := by
    rw [← Real.sqrt_one]; exact Real.sqrt_le_sqrt h1
  have ht0 : 0 ≤ Real.arcsin (Real.sqrt h) := Real.arcsin_nonneg.mpr hs0
  have htp := Real.arcsin_le_pi_div_two (Real.sqrt h)
  have hsin : Real.sin (Real.arcsin (Real.sqrt h)) = Real.sqrt h :=
    Real.sin_arcsin (le_trans (by norm_num) hs0) hs1
  have hsq : Real.sin (Real.arcsin (Real.sqrt h)) ^ 2 = h := by
    rw [hsin]; exact Real.sq_sqrt h0
  have hcos : Real.cos (2 * Real.arcsin (Real.sqrt h)) = 1 - 2 * h := by
    rw [Real.cos_two_mul]
    nlinarith [Real.sin_sq_add_cos_sq (Real.arcsin (Real.sqrt h))]
  rw [← hcos, Real.arccos_cos (by linarith) (by linarith)]

/-- The inner product of two position vectors lies in `[-1, 1]`. -/
theorem inner_posVec_mem (p q : Position) :
    -1 ≤ ⟪posVec p, posVec q⟫ ∧ ⟪posVec p, posVec q⟫ ≤ 1 := by
  have h := abs_real_inner_le_norm (posVec p) (posVec q)
  rw [posVec_norm, posVec_norm] at h
  exact abs_le.mp (by simpa using h)

/-- The haversine distance is the Earth radius times the central angle
`arccos ⟪posVec p, posVec q⟫`. -/
theorem calculate_distance_eq_arccos (p q : Position) :
    calculate_distance p q = 6371000 * Real.arccos ⟪posVec p, posVec q⟫ := by
  obtain ⟨hI1, hI2⟩ := inner_posVec_mem p q
  have hhav := hav_eq_inner (toRadians p.lat) (toRadians p.lon)
    (toRadians q.lat) (toRadians q.lon)
  simp only [calculate_distance, posVec] at hhav ⊢
  rw [hhav, two_arcsin_sqrt (by simp only [posVec] at hI2; linarith)
    (by simp only [posVec] at hI1; linarith)]
  have harg : 1 - 2 * ((1 - ⟪sphVec (toRadians p.lat) (toRadians p.lon),
      sphVec (toRadians q.lat) (toRadians q.lon)⟫) / 2) =
      ⟪sphVec (toRadians p.lat) (toRadians p.lon),
        sphVec (toRadians q.lat) (toRadians q.lon)⟫ := by ring
  rw [harg]

/-- The inner product of a position vector with itself is one. -/
theorem inner_posVec_self (p : Position) : ⟪posVec p, posVec p⟫ = 1 := by
  rw [real_inner_self_eq_norm_mul_norm, posVec_norm]; norm_num

/-- Bounds of `atan2` embedded through the complex argument. -/
theorem atan2_mem (y x : ℝ) : -Real.pi < atan2 y x ∧ atan2 y x ≤ Real.pi :=
  ⟨Complex.neg_pi_lt_arg _, Complex.arg_le_pi _⟩

/-- An angle in `(-π, π]` converted to degrees and wrapped by adding `360`
when negative lies in `[0, 360)`. -/
theorem deg_wrap_mem (t : ℝ) (h1 : -Real.pi < t) (h2 : t ≤ Real.pi) :
    0 ≤ (if t * (180 / Real.pi) < 0 then t * (180 / Real.pi) + 360
          else t * (180 / Real.pi)) ∧
      (if t * (180 / Real.pi) < 0 then t * (180 / Real.pi) + 360
        else t * (180 / Real.pi)) < 360 := by
  have hpi := Real.pi_pos
  have hd : (0 : ℝ) < 180 / Real.pi := by positivity
  have hub : t * (180 / Real.pi) ≤ 180 := by
    have hm := mul_le_mul_of_nonneg_right h2 (le_of_lt hd)
    have hps : Real.pi * (180 / Real.pi) = 180 := by field_simp
    linarith
  have hlb : -180 < t * (180 / Real.pi) := by
    have hm := mul_lt_mul_of_pos_right h1 hd
    have hps : -Real.pi * (180 / Real.pi) = -180 := by field_simp; ring
    linarith
  split_ifs with h
  · constructor <;> linarith
  · constructor <;> linarith

/-- Pulling a constant factor out of a weighted sum. -/
theorem sum_map_mul_const (l : List (ℚ × ℚ)) (c : ℚ) :
    (l.map fun p => p.1 * (p.2 * c)).sum = (l.map fun p => p.1 * p.2).sum * c := by
  induction l with
  | nil => simp
  | cons p t ih => simp only [List.map_cons, List.sum_cons, ih]; ring

/-- C1: for guard state `{last_sequence := L, epoch := E}`, a report with
`sequence = L, epoch = E` yields `not_replay = false` together with a
`ReplayAttempt` anomaly; a report with `sequence > L, epoch = E` yields
`not_replay = true`; and in general `not_replay` holds exactly when the
sequence strictly increased within the same epoch or the epoch advanced. -/
theorem replay_verdict_spec (L E : Nat) :
    (ReplayGuard.not_replay ⟨L, E⟩ L E = false ∧
        AnomalyType.ReplayAttempt ∈ ReplayGuard.verdict_anomalies ⟨L, E⟩ L E) ∧
      (∀ s, L < s → ReplayGuard.not_replay ⟨L, E⟩ s E = true) ∧
      (∀ s e, ReplayGuard.not_replay ⟨L, E⟩ s e = true ↔
        ((L < s ∧ e = E) ∨ E < e)) := by
  have hfalse : ReplayGuard.not_replay ⟨L, E⟩ L E = false := by
    simp [ReplayGuard.not_replay]
  refine ⟨⟨hfalse, ?_⟩, ?_, ?_⟩
  · simp [ReplayGuard.verdict_anomalies, hfalse]
  · intro s hs
    simp [ReplayGuard.not_replay, hs]
  · intro s e
    simp [ReplayGuard.not_replay]

/-- Witness for C1 at the spec's concrete scenario `last_sequence = 5`. -/
theorem replay_verdict_spec_witness :
    ReplayGuard.not_replay ⟨5, 3⟩ 5 3 = false ∧
      AnomalyType.ReplayAttempt ∈ ReplayGuard.verdict_anomalies ⟨5, 3⟩ 5 3 ∧
      ReplayGuard.not_replay ⟨5, 3⟩ 6 3 = true :=
  ⟨(replay_verdict_spec 5 3).1.1, (replay_verdict_spec 5 3).1.2,
    (replay_verdict_spec 5 3).2.1 6 (by decide)⟩

/-- C2 (counterexample): `weighted_trust_average` is not bounded by `[0, 1]`
for arbitrary inputs — a score of `2` with weight `1` averages to `2`. -/
theorem weighted_trust_average_out_of_range :
    weighted_trust_average [(2, 1)] = 2 ∧
      ¬ weighted_trust_average [(2, 1)] ≤ 1 := by
  constructor <;>
    norm_num [weighted_trust_average, List.map_cons, List.map_nil,
      List.sum_cons, List.sum_nil]

/-- C2 (amended): for every input list whose scores lie in `[0, 1]` and
whose weights are nonnegative, `weighted_trust_average` lies in `[0, 1]`. -/
theorem weighted_trust_average_unit (scores : List (TrustScore × ℚ))
    (h : ∀ p ∈ scores, 0 ≤ p.1 ∧ p.1 ≤ 1 ∧ 0 ≤ p.2) :
    0 ≤ weighted_trust_average scores ∧ weighted_trust_average scores ≤ 1 := by
  simp only [weighted_trust_average]
  split_ifs with he ht
  · norm_num
  · norm_num
  · have htotnn : 0 ≤ (scores.map fun p => p.2).sum := by
      apply List.sum_nonneg
      intro q hq
      obtain ⟨p, hp, rfl⟩ := List.mem_map.mp hq
      exact (h p hp).2.2
    have htpos : 0 < (scores.map fun p => p.2).sum :=
      lt_of_le_of_ne htotnn (Ne.symm ht)
    have hsnn : 0 ≤ (scores.map fun p => p.1 * p.2).sum := by
      apply List.sum_nonneg
      intro q hq
      obtain ⟨p, hp, rfl⟩ := List.mem_map.mp hq
      exact mul_nonneg (h p hp).1 (h p hp).2.2
    have hsle : (scores.map fun p => p.1 * p.2).sum ≤
        (scores.map fun p => p.2).sum := by
      apply List.sum_le_sum
      intro p hp
      calc p.1 * p.2 ≤ 1 * p.2 :=
            mul_le_mul_of_nonneg_right (h p hp).2.1 (h p hp).2.2
        _ = p.2 := one_mul _
    exact ⟨div_nonneg hsnn htotnn, (div_le_one htpos).mpr hsle⟩

/-- Witness for the amended C2 on a concrete in-range input. -/
theorem weighted_trust_average_unit_witness :
    (∀ p ∈ [((1 : ℚ) / 2, (1 : ℚ))], 0 ≤ p.1 ∧ p.1 ≤ 1 ∧ 0 ≤ p.2) ∧
      (0 ≤ weighted_trust_average [((1 : ℚ) / 2, 1)] ∧
        weighted_trust_average [((1 : ℚ) / 2, 1)] ≤ 1) := by
  have hmem : ∀ p ∈ [((1 : ℚ) / 2, (1 : ℚ))], 0 ≤ p.1 ∧ p.1 ≤ 1 ∧ 0 ≤ p.2 := by
    intro p hp
    rw [List.mem_singleton] at hp
    subst hp
    refine ⟨by norm_num, by norm_num, by norm_num⟩
  exact ⟨hmem, weighted_trust_average_unit _ hmem⟩

/-- C3: on a non-empty list whose weights sum to a non-zero total `W`,
`weighted_trust_average` returns exactly `(Σ scoreᵢ · weightᵢ) / W`,
equivalently the weighted sum with each weight rescaled by `1 / W`; in
particular weights summing to `0.8` are rescaled by `1.25`. -/
theorem weighted_trust_average_exact (scores : List (TrustScore × ℚ))
    (hne : scores ≠ []) (hW : (scores.map fun p => p.2).sum ≠ 0) :
    weighted_trust_average scores =
        (scores.map fun p => p.1 * p.2).sum / (scores.map fun p => p.2).sum ∧
      weighted_trust_average scores =
        (scores.map fun p =>
          p.1 * (p.2 * (1 / (scores.map fun p => p.2).sum))).sum ∧
      ((scores.map fun p => p.2).sum = 4 / 5 →
        weighted_trust_average scores =
          (scores.map fun p => p.1 * (p.2 * (5 / 4))).sum) := by
  have hmain : weighted_trust_average scores =
      (scores.map fun p => p.1 * p.2).sum / (scores.map fun p => p.2).sum := by
    simp only [weighted_trust_average]
    rw [if_neg (by simpa [List.isEmpty_iff] using hne), if_neg hW]
  refine ⟨hmain, ?_, ?_⟩
  · rw [hmain, sum_map_mul_const, div_eq_mul_inv, one_div]
  · intro h45
    rw [hmain, h45, sum_map_mul_const, div_eq_mul_inv]
    norm_num

/-- Witness for C3: two sub-scores whose weights sum to `0.8` combine to the
rescaled weighted sum `(1/5 + 2/5) · 1.25 = 3/4`. -/
theorem weighted_trust_average_exact_witness :
    weighted_trust_average [((1 : ℚ) / 2, 2 / 5), (1, 2 / 5)] = 3 / 4 := by
  have h := weighted_trust_average_exact [((1 : ℚ) / 2, 2 / 5), (1, 2 / 5)]
    (List.cons_ne_nil _ _)
    (by norm_num [List.map_cons, List.map_nil, List.sum_cons, List.sum_nil])
  rw [h.1]
  norm_num [List.map_cons, List.map_nil, List.sum_cons, List.sum_nil]

/-- C4: `Config::merge` returns the override configuration wholesale,
unchanged, regardless of the base — no field-level cascading occurs. -/
theorem config_merge_returns_override (base override : Config) :
    Config.merge base override = Except.ok override :=
  rfl

/-- C5 (counterexample): `validate` is not a function of the report alone —
the source reads the wall clock internally, and the same report validated
at clock readings `0` and `100000` seconds yields different outcomes. -/
theorem validate_reads_clock :
    exampleReport.validate 0 ≠ exampleReport.validate 100000 := by
  have h1 : exampleReport.validate 0 = Except.ok () := by
    norm_num [VehiclePosition.validate, exampleReport, examplePosition]
  have h2 : exampleReport.validate 100000 =
      Except.error "Timestamp too far from current time" := by
    norm_num [VehiclePosition.validate, exampleReport, examplePosition]
  rw [h1, h2]
  exact fun h => Except.noConfusion h

/-- C5 (amended): for a fixed clock reading, `validate` is a pure
deterministic function of the report's latitude, longitude, sequence and
timestamp — reports agreeing on those fields validate identically. -/
theorem validate_deterministic (r s : VehiclePosition) (now : ℤ)
    (hlat : r.position.lat = s.position.lat)
    (hlon : r.position.lon = s.position.lon)
    (hseq : r.sequence = s.sequence) (hts : r.timestamp = s.timestamp) :
    r.validate now = s.validate now := by
  unfold VehiclePosition.validate
  rw [hlat, hlon, hseq, hts]

/-- Witness for the amended C5: two reports differing only in `heading`
validate identically. -/
theorem validate_deterministic_witness :
    exampleReport.validate 0 = exampleReportB.validate 0 :=
  validate_deterministic exampleReport exampleReportB 0 rfl rfl rfl rfl

/-- C6: `validate` returns an error when the latitude is outside
`[-90, 90]`, when the longitude is outside `[-180, 180]`, or when
`sequence = 0`, and returns `Ok` when none of its rejection conditions
(including the 24-hour timestamp-freshness window) hold. -/
theorem validate_rejects_malformed (v : VehiclePosition) (now : ℤ) :
    ((v.position.lat < -90 ∨ v.position.lat > 90) →
        ∃ msg, v.validate now = Except.error msg) ∧
      ((v.position.lon < -180 ∨ v.position.lon > 180) →
        ∃ msg, v.validate now = Except.error msg) ∧
      (v.sequence = 0 → ∃ msg, v.validate now = Except.error msg) ∧
      (-90 ≤ v.position.lat → v.position.lat ≤ 90 → -180 ≤ v.position.lon →
        v.position.lon ≤ 180 → v.sequence ≠ 0 → |now - v.timestamp| ≤ 86400 →
        v.validate now = Except.ok ()) := by
  unfold VehiclePosition.validate
  refine ⟨?_, ?_, ?_, ?_⟩
  · intro h
    rw [if_pos h]
    exact ⟨_, rfl⟩
  · intro h
    by_cases hlat : v.position.lat < -90 ∨ v.position.lat > 90
    · rw [if_pos hlat]; exact ⟨_, rfl⟩
    · rw [if_neg hlat, if_pos h]; exact ⟨_, rfl⟩
  · intro h
    by_cases hlat : v.position.lat < -90 ∨ v.position.lat > 90
    · rw [if_pos hlat]; exact ⟨_, rfl⟩
    · by_cases hlon : v.position.lon < -180 ∨ v.position.lon > 180
      · rw [if_neg hlat, if_pos hlon]; exact ⟨_, rfl⟩
      · rw [if_neg hlat, if_neg hlon, if_pos h]; exact ⟨_, rfl⟩
  · intro h1 h2 h3 h4 h5 h6
    rw [if_neg (by push_neg; exact ⟨h1, h2⟩), if_neg (by push_neg; exact ⟨h3, h4⟩),
      if_neg h5, if_neg (not_lt.mpr h6)]

/-- Witness for C6: an out-of-domain latitude is rejected and an in-domain
fresh report is accepted. -/
theorem validate_rejects_malformed_witness :
    (∃ msg, badLatReport.validate 0 = Except.error msg) ∧
      exampleReport.validate 0 = Except.ok () :=
  ⟨(validate_rejects_malformed badLatReport 0).1
      (by right; norm_num [badLatReport, exampleReport, examplePosition]),
    (validate_rejects_malformed exampleReport 0).2.2.2
      (by norm_num [exampleReport, examplePosition])
      (by norm_num [exampleReport, examplePosition])
      (by norm_num [exampleReport, examplePosition])
      (by norm_num [exampleReport, examplePosition])
      (by norm_num [exampleReport])
      (by norm_num [exampleReport])⟩

/-- C7: over the valid coordinate domain the haversine distance vanishes on
the diagonal, is symmetric, and satisfies the triangle inequality (exactly,
over `ℝ`). -/
theorem calculate_distance_metric (a b c : Position)
    (ha : -90 ≤ a.lat ∧ a.lat ≤ 90 ∧ -180 ≤ a.lon ∧ a.lon ≤ 180)
    (hb : -90 ≤ b.lat ∧ b.lat ≤ 90 ∧ -180 ≤ b.lon ∧ b.lon ≤ 180)
    (hc : -90 ≤ c.lat ∧ c.lat ≤ 90 ∧ -180 ≤ c.lon ∧ c.lon ≤ 180) :
    calculate_distance a a = 0 ∧
      calculate_distance a b = calculate_distance b a ∧
      calculate_distance a c ≤
        calculate_distance a b + calculate_distance b c := by
  refine ⟨?_, ?_, ?_⟩
  · rw [calculate_distance_eq_arccos, inner_posVec_self, Real.arccos_one,
      mul_zero]
  · rw [calculate_distance_eq_arccos, calculate_distance_eq_arccos,
      real_inner_comm]
  · rw [calculate_distance_eq_arccos, calculate_distance_eq_arccos,
      calculate_distance_eq_arccos, ← mul_add]
    exact mul_le_mul_of_nonneg_left
      (arccos_inner_triangle (posVec a) (posVec b) (posVec c)
        (posVec_norm a) (posVec_norm b) (posVec_norm c)) (by norm_num)

/-- Witness for C7 at a concrete in-domain position. -/
theorem calculate_distance_metric_witness :
    calculate_distance examplePosition examplePosition = 0 ∧
      calculate_distance examplePosition examplePosition =
        calculate_distance examplePosition examplePosition ∧
      calculate_distance examplePosition examplePosition ≤
        calculate_distance examplePosition examplePosition +
          calculate_distance examplePosition examplePosition :=
  calculate_distance_metric examplePosition examplePosition examplePosition
    (by norm_num [examplePosition]) (by norm_num [examplePosition])
    (by norm_num [examplePosition])

/-- C8: over the valid coordinate domain the initial bearing lies in the
half-open interval `[0, 360)`. -/
theorem calculate_bearing_range (pos1 pos2 : Position)
    (h1 : -90 ≤ pos1.lat ∧ pos1.lat ≤ 90 ∧ -180 ≤ pos1.lon ∧ pos1.lon ≤ 180)
    (h2 : -90 ≤ pos2.lat ∧ pos2.lat ≤ 90 ∧ -180 ≤ pos2.lon ∧ pos2.lon ≤ 180) :
    0 ≤ calculate_bearing pos1 pos2 ∧ calculate_bearing pos1 pos2 < 360 := by
  simp only [calculate_bearing]
  exact deg_wrap_mem _ (atan2_mem _ _).1 (atan2_mem _ _).2

/-- Witness for C8 at a concrete in-domain position pair. -/
theorem calculate_bearing_range_witness :
    0 ≤ calculate_bearing examplePosition examplePosition ∧
      calculate_bearing examplePosition examplePosition < 360 :=
  calculate_bearing_range examplePosition examplePosition
    (by norm_num [examplePosition]) (by norm_num [examplePosition])

/-- C9: `normalize_trust_score` always returns a value in `[0, 1]` and
returns its input unchanged whenever the input already lies in `[0, 1]`. -/
theorem normalize_trust_score_spec (score : TrustScore) :
    (0 ≤ normalize_trust_score score ∧ normalize_trust_score score ≤ 1) ∧
      (0 ≤ score → score ≤ 1 → normalize_trust_score score = score) := by
  unfold normalize_trust_score
  refine ⟨⟨le_min (le_max_right _ _) zero_le_one, min_le_right _ _⟩, ?_⟩
  intro h0 h1
  rw [max_eq_left h0, min_eq_left h1]

/-- Witness for C9 at the in-range score `1/2`. -/
theorem normalize_trust_score_spec_witness :
    normalize_trust_score (1 / 2) = 1 / 2 :=
  (normalize_trust_score_spec (1 / 2)).2 (by norm_num) (by norm_num)

/-- C10: a report whose `trust` field is `None` has `trust_score = 0` and is
not trusted at any positive threshold. -/
theorem trust_none_untrusted (v : VehiclePosition) (threshold : TrustScore)
    (hnone : v.trust = none) (hpos : 0 < threshold) :
    v.trust_score = 0 ∧ v.is_trusted threshold = false := by
  have h1 : v.trust_score = 0 := by
    simp [VehiclePosition.trust_score, hnone]
  refine ⟨h1, ?_⟩
  simp only [VehiclePosition.is_trusted, h1, decide_eq_false_iff_not]
  exact not_le.mpr hpos

/-- Witness for C10: the example report carries no trust metrics and is not
trusted at threshold `1/2`. -/
theorem trust_none_untrusted_witness :
    exampleReport.trust_score = 0 ∧ exampleReport.is_trusted (1 / 2) = false :=
  trust_none_untrusted exampleReport (1 / 2) rfl (by norm_num)

end GeoVan
